import Mathlib

/-!
Verification of the resource lifecycle orchestration core.

Shallow embedding of the Rust sources under src/: the error model
(src/src/errors/mod.rs), the local Docker build platform
(src/src/build_platform/local_docker.rs), the ECR container registry
(src/src/container_registry/ecr.rs) and the AWS Redis database
(src/src/cloud_provider/aws/databases/redis.rs).

Pure computations are translated directly; external effects (process
execution, network calls, the filesystem) are parameterised by explicit
oracle records so that each code path of the source becomes a branch of
a Lean function, and the sequence of externally visible attempts is
returned alongside the result.
-/

/-! ## String helpers mirroring the Rust standard library -/

/-- Whitespace predicate used by the Rust function str::trim
(char::is_whitespace, the Unicode White_Space property). -/
def isRustWhitespace (c : Char) : Bool :=
  c = ' ' || c = '\t' || c = '\n' || c = '\x0b' || c = '\x0c' || c = '\r' ||
  c = '\u0085' || c = ' ' || c = ' ' ||
  (0x2000 ≤ c.toNat && c.toNat ≤ 0x200a) ||
  c = ' ' || c = ' ' || c = ' ' || c = ' ' || c = '　'

/-- Rust str::trim: remove leading and trailing whitespace. -/
def rustTrim (s : String) : String :=
  ⟨((s.data.dropWhile isRustWhitespace).reverse.dropWhile isRustWhitespace).reverse⟩

/-- Rust str::to_lowercase, restricted to ASCII letters (the only
characters the embedded code compares against). -/
def rustToLowercase (s : String) : String :=
  ⟨s.data.map Char.toLower⟩

/-! ## Error model, from src/src/errors/mod.rs -/

/-- Tag: unique identifier for an error (src/src/errors/mod.rs, enum Tag).
The first five variants are the enum exactly as written in
src/src/errors/mod.rs. The remaining variants are modelled from the spec:
the spec lists TaskCancellationRequested plus one tag per domain failure
site (dockerfile missing, build failed, push failed, credential invalid,
repository creation failed, ...); the newer errors module declaring them is
not under src/, only its callers in local_docker.rs and ecr.rs are. -/
inductive Tag where
  | Unknown
  | UnsupportedInstanceType
  | CannotRetrieveClusterConfigFile
  | CannotGetClusterNodes
  | NotEnoughResourcesToDeployEnvironment
  | TaskCancellationRequested
  | DockerCannotReadDockerfile
  | DockerCannotExtractEnvVarsFromDockerfile
  | DockerCannotBuildContainerImage
  | DockerCannotFindDockerfile
  | BuildpackInvalidLanguageFormat
  | BuildpackCannotBuildContainerImage
  | CannotGetWorkspaceDirectory
  | BuilderCloneRepositoryError
  | DockerPushImageError
  | DockerPullImageError
  | ContainerRegistryNamespaceCreationError
  | ContainerRegistryGetCredentialsError
  | ContainerRegistryRepositorySetLifecyclePolicyError
  | ClientInvalidCloudProviderCredentials
  | NotImplementedError
  | MissingRequiredBinary
  deriving DecidableEq

/-- Modelled from the spec: EventDetails holds the who/where/when context
of an event (organization, cluster, execution id); the events module is
not under src/. Only its presence matters to the embedded code, never its
content, so a single field suffices. -/
structure EventDetails where
  execution_id : String
  deriving DecidableEq

/-- Modelled from the spec: the newer CommandError carried by engine
errors (a raw message that may hold secrets plus an optional safe
message); declared in the errors module that is not under src/, used by
local_docker.rs and ecr.rs through new, new_from_safe_message,
message_raw and message_safe. -/
structure CommandError where
  message : String
  message_safe : Option String
  deriving DecidableEq

/-- CommandError::new(message, message_safe). -/
def CommandError.new (message : String) (message_safe : Option String) : CommandError :=
  { message := message, message_safe := message_safe }

/-- CommandError::new_from_safe_message(message). -/
def CommandError.new_from_safe_message (message : String) : CommandError :=
  { message := message, message_safe := some message }

/-- EngineError: immutable error record (src/src/errors/mod.rs, struct
EngineError). Url is modelled as a plain string. -/
structure EngineError where
  tag : Tag
  event_details : EventDetails
  qovery_log_message : String
  user_log_message : String
  raw_message : Option String
  raw_message_safe : Option String
  link : Option String
  hint_message : Option String
  deriving DecidableEq

/-- EngineError::message (src/src/errors/mod.rs lines 98-108): returns the
safe raw message if present, otherwise the raw message, otherwise the
fixed fallback string. -/
def EngineError.message (e : EngineError) : String :=
  match e.raw_message_safe with
  | some msg => msg
  | none =>
    match e.raw_message with
    | some msg => msg
    | none => "no error message defined"

/-- EngineError::new (src/src/errors/mod.rs lines 132-152). -/
def EngineError.new (event_details : EventDetails) (tag : Tag)
    (qovery_log_message user_log_message : String)
    (raw_message raw_message_safe : Option String)
    (link hint_message : Option String) : EngineError :=
  { tag := tag
    event_details := event_details
    qovery_log_message := qovery_log_message
    user_log_message := user_log_message
    raw_message := raw_message
    raw_message_safe := raw_message_safe
    link := link
    hint_message := hint_message }

/-- EngineError::new_cannot_retrieve_cluster_config_file
(src/src/errors/mod.rs lines 231-243). -/
def EngineError.new_cannot_retrieve_cluster_config_file
    (event_details : EventDetails) (raw_message : String) : EngineError :=
  let message := "Cannot retrieve Kubernetes instance type is not supported"
  EngineError.new event_details Tag.CannotRetrieveClusterConfigFile
    message message (some raw_message) none none none

/-- EngineError::new_cannot_get_cluster_nodes (src/src/errors/mod.rs lines
251-263). Note: the source passes Tag::CannotRetrieveClusterConfigFile
here, exactly as transcribed below. -/
def EngineError.new_cannot_get_cluster_nodes
    (event_details : EventDetails) (raw_message : String) : EngineError :=
  let message := "Cannot get Kubernetes nodes"
  EngineError.new event_details Tag.CannotRetrieveClusterConfigFile
    message message (some raw_message) none none none

/-! ## Data model of the build platform
(crate::build_platform, modelled from the spec where the module itself is
not under src/, with field names taken from the uses in local_docker.rs) -/

/-- Modelled from the spec: Image identifies a container artifact, with a
repository name, tag, owning application id, commit id and optional
resolved registry URL (the build_platform module declaring it is not
under src/). -/
structure Image where
  name : String
  tag : String
  application_id : String
  commit_id : String
  registry_url : Option String
  deriving DecidableEq

/-- Image::name_with_tag, used throughout local_docker.rs and ecr.rs. -/
def Image.name_with_tag (i : Image) : String :=
  i.name ++ ":" ++ i.tag

/-- Image::name_with_latest_tag, used by build_image_with_docker. -/
def Image.name_with_latest_tag (i : Image) : String :=
  i.name ++ ":latest"

/-- Modelled from the spec: a declared build-time environment variable
(key and value), iterated by LocalDocker::build. -/
structure EnvironmentVariable where
  key : String
  value : String
  deriving DecidableEq

/-- Modelled from the spec: the source repository reference of a Build
(URL, commit id, optional Dockerfile path, optional buildpack language
hint, root path inside the repository); the build_platform module
declaring it is not under src/. Credentials are irrelevant to the claims
and omitted. -/
structure GitRepository where
  url : String
  commit_id : String
  root_path : String
  dockerfile_path : Option String
  buildpack_language : Option String
  deriving DecidableEq

/-- Modelled from the spec: build options (the declared environment
variables). -/
structure BuildOptions where
  environment_variables : List EnvironmentVariable
  deriving DecidableEq

/-- Modelled from the spec: Build, one unit of build work. -/
structure Build where
  git_repository : GitRepository
  image : Image
  options : BuildOptions
  deriving DecidableEq

/-- Modelled from the spec: BuildResult, the success value of build(). -/
structure BuildResult where
  build : Build
  deriving DecidableEq

/-- Modelled from the spec (section 4.1): the error of the cancellable
command executor (crate::cmd::command::CommandError, not under src/).
A timeout or a cooperative cancellation kills the process and fails with
Killed, indistinguishable at this layer; any other process failure (a
non-success exit status) is a distinct variant. -/
inductive CmdError where
  | killed (message : String)
  | exitStatusError (message : String)
  deriving DecidableEq

/-- Debug formatting of a CmdError, standing for the Rust
format string applied to the error in local_docker.rs. -/
def CmdError.debugFmt : CmdError → String
  | .killed m => "Killed(" ++ m ++ ")"
  | .exitStatusError m => "ExitStatusError(" ++ m ++ ")"

/-! ## Engine error constructors used by the build and registry code
(the newer errors module is not under src/; tags and messages follow the
spec taxonomy, and the buildpack failure message names the builders as
the spec requires). -/

/-- Joins a list of strings with a separator, as the builder list is
rendered inside the buildpack failure message. -/
def join_with (sep : String) : List String → String
  | [] => ""
  | [x] => x
  | x :: y :: rest => x ++ sep ++ join_with sep (y :: rest)

/-- Modelled from the spec: EngineError::new_task_cancellation_requested,
the distinct task-cancellation-requested error (spec sections 4.3 and 7);
the constructor lives in the errors module not under src/. -/
def EngineError.new_task_cancellation_requested (event_details : EventDetails) : EngineError :=
  let message := "Task cancellation requested"
  EngineError.new event_details Tag.TaskCancellationRequested
    message message none (some message) none none

/-- Modelled from the spec: EngineError::new_docker_cannot_read_dockerfile. -/
def EngineError.new_docker_cannot_read_dockerfile (event_details : EventDetails)
    (dockerfile_path : String) (error : CommandError) : EngineError :=
  let message := "Cannot read Dockerfile " ++ dockerfile_path
  EngineError.new event_details Tag.DockerCannotReadDockerfile
    message message (some error.message) error.message_safe none none

/-- Modelled from the spec: EngineError::new_docker_cannot_extract_env_vars_from_dockerfile. -/
def EngineError.new_docker_cannot_extract_env_vars_from_dockerfile
    (event_details : EventDetails) (dockerfile_path : String)
    (error : CommandError) : EngineError :=
  let message := "Cannot extract environment variables from Dockerfile " ++ dockerfile_path
  EngineError.new event_details Tag.DockerCannotExtractEnvVarsFromDockerfile
    message message (some error.message) error.message_safe none none

/-- Modelled from the spec: EngineError::new_docker_cannot_build_container_image,
the generic Dockerfile-strategy build failure (spec section 4.3: a
failure that is not a cancellation is a generic build failure). -/
def EngineError.new_docker_cannot_build_container_image (event_details : EventDetails)
    (container_image_name : String) (error : CommandError) : EngineError :=
  let message := "Error while building container image " ++ container_image_name
  EngineError.new event_details Tag.DockerCannotBuildContainerImage
    message message (some error.message) error.message_safe none none

/-- Modelled from the spec: EngineError::new_docker_cannot_find_dockerfile
(spec section 4.3: a named Dockerfile that does not exist on disk is a
hard failure before any process is spawned). -/
def EngineError.new_docker_cannot_find_dockerfile (event_details : EventDetails)
    (dockerfile_path : String) : EngineError :=
  let message := "Dockerfile not found at location " ++ dockerfile_path
  EngineError.new event_details Tag.DockerCannotFindDockerfile
    message message none (some message) none none

/-- Modelled from the spec: EngineError::new_buildpack_invalid_language_format
(spec section 4.3: an unparseable buildpack-language hint is a hard
failure with no attempt made). -/
def EngineError.new_buildpack_invalid_language_format (event_details : EventDetails)
    (requested_language : String) : EngineError :=
  let message := "Cannot build, invalid buildpacks language format: " ++ requested_language
  EngineError.new event_details Tag.BuildpackInvalidLanguageFormat
    message message none (some message) none none

/-- Modelled from the spec: EngineError::new_buildpack_cannot_build_container_image,
the generic buildpacks failure; per the spec (section 4.3) the error
names every attempted builder, so the builder list is rendered into the
safe message. -/
def EngineError.new_buildpack_cannot_build_container_image (event_details : EventDetails)
    (container_image_name : String) (builders_tried : List String)
    (error : CommandError) : EngineError :=
  let message := "Error while building container image " ++ container_image_name
      ++ " with one of those builders: " ++ join_with ", " builders_tried
  EngineError.new event_details Tag.BuildpackCannotBuildContainerImage
    message message (some error.message) (some message) none none

/-- Modelled from the spec: EngineError::new_cannot_get_workspace_directory. -/
def EngineError.new_cannot_get_workspace_directory (event_details : EventDetails)
    (error : CommandError) : EngineError :=
  let message := "Error while trying to get workspace directory"
  EngineError.new event_details Tag.CannotGetWorkspaceDirectory
    message message (some error.message) error.message_safe none none

/-- Modelled from the spec: EngineError::new_builder_clone_repository_error. -/
def EngineError.new_builder_clone_repository_error (event_details : EventDetails)
    (repository_url : String) (error : CommandError) : EngineError :=
  let message := "Error while cloning repository " ++ repository_url
  EngineError.new event_details Tag.BuilderCloneRepositoryError
    message message (some error.message) error.message_safe none none

/-- Modelled from the spec: EngineError::new_docker_pull_image_error. -/
def EngineError.new_docker_pull_image_error (event_details : EventDetails)
    (image_name : String) (repository_url : String) (error : CommandError) : EngineError :=
  let message := "Error while pulling image " ++ image_name ++ " from " ++ repository_url
  EngineError.new event_details Tag.DockerPullImageError
    message message (some error.message) error.message_safe none none

/-! ## Build orchestrator, from src/src/build_platform/local_docker.rs -/

/-- The fixed, ordered list of buildpack builder images
(src/src/build_platform/local_docker.rs lines 23-28, BUILDPACKS_BUILDERS). -/
def BUILDPACKS_BUILDERS : List String :=
  ["heroku/buildpacks:20"]

/-- The sentinel test applied to each declared environment variable by
LocalDocker::build (lines 544-552): the variable disables the build cache
exactly when its key is QOVERY_DISABLE_BUILD_CACHE and its lowercased
value is the string true. -/
def is_disable_cache_sentinel (ev : EnvironmentVariable) : Bool :=
  ev.key = "QOVERY_DISABLE_BUILD_CACHE" && rustToLowercase ev.value = "true"

/-- Formats an environment variable the way LocalDocker::build pushes it
into env_var_args. -/
def format_env_var (ev : EnvironmentVariable) : String :=
  ev.key ++ "=" ++ ev.value

/-- The environment-variable preparation loop of LocalDocker::build
(lines 541-552): returns the disable_build_cache flag together with
env_var_args, the KEY=VALUE strings of every variable that is not the
active disable-cache sentinel, in declaration order. -/
def prepare_build_env : List EnvironmentVariable → Bool × List String
  | [] => (false, [])
  | ev :: rest =>
    let r := prepare_build_env rest
    if is_disable_cache_sentinel ev then (true, r.2)
    else (r.1, format_env_var ev :: r.2)

/-- The Dockerfile path normalization of LocalDocker::build (lines
604-608): the trimmed path is matched against the sentinel spellings of
the default Dockerfile and otherwise used as is. -/
def normalize_dockerfile_path (dockerfile_relative_path : String) : String :=
  let t := rustTrim dockerfile_relative_path
  if t = "" || t = "." || t = "/" || t = "/." || t = "./" || t = "Dockerfile"
  then "Dockerfile"
  else t

/-- The key part of a KEY=VALUE argument string. -/
def env_var_key (arg : String) : String :=
  ⟨arg.data.takeWhile (fun c => c ≠ '=')⟩

/-- Whether a character list starts with another one. -/
def starts_with_chars : List Char → List Char → Bool
  | _, [] => true
  | [], _ :: _ => false
  | h :: hs, n :: ns => h = n && starts_with_chars hs ns

/-- Whether a character list occurs contiguously inside another one. -/
def contains_chars (haystack needle : List Char) : Bool :=
  starts_with_chars haystack needle ||
    match haystack with
    | [] => false
    | _ :: rest => contains_chars rest needle

/-- Whether a string is textually referenced (occurs as a substring)
inside another string. -/
def string_contains (haystack needle : String) : Bool :=
  contains_chars haystack.data needle.data

/-- Modelled from the spec: docker::match_used_env_var_args
(crate::build_platform::docker, not under src/), which keeps only the
declared environment variables whose key is textually referenced inside
the Dockerfile content; a variable not mentioned in the Dockerfile is
dropped rather than passed (spec section 4.3). -/
def match_used_env_var_args (env_var_args : List String)
    (dockerfile_content : String) : List String :=
  env_var_args.filter (fun arg => string_contains dockerfile_content (env_var_key arg))

/-- The docker build argument list assembled by
LocalDocker::build_image_with_docker (lines 94-148): the build verb with
the optional no-cache flag, the context build options, the Dockerfile
path, the two image tags, one --build-arg pair per retained environment
variable, and the build context directory. -/
def build_image_with_docker_args (use_build_cache : Bool)
    (docker_build_options : List (List String))
    (dockerfile_complete_path : String) (image : Image)
    (env_var_args : List String) (dockerfile_content : String)
    (into_dir_docker_style : String) : List String :=
  let docker_args := if !use_build_cache then ["build", "--no-cache"] else ["build"]
  let docker_args := docker_args ++ docker_build_options.flatten
  let docker_args := docker_args ++
    ["-f", dockerfile_complete_path, "-t", image.name_with_tag, "-t", image.name_with_latest_tag]
  let used := match_used_env_var_args env_var_args dockerfile_content
  let docker_args := docker_args ++ used.flatMap (fun arg_value => ["--build-arg", arg_value])
  docker_args ++ [into_dir_docker_style]

/-- The result dispatch of LocalDocker::build_image_with_docker (lines
119-196): reading the Dockerfile may fail; then the docker build process
runs once, a kill (timeout or cancellation) maps to the
task-cancellation-requested error, and any other process failure maps to
the generic docker build failure. The process outcome and the file read
are oracle parameters. The argument assembly (lines 94-148, modelled
separately by build_image_with_docker_args) does not influence the
result; the env-var extraction of the spec-modelled
match_used_env_var_args is total, so the extraction-failure arm of lines
122-131 has no counterpart here. -/
def build_image_with_docker (dockerfile_read : Except String String)
    (exec_outcome : Option CmdError) (event_details : EventDetails)
    (name_with_id : String) (dockerfile_complete_path : String)
    (b : Build) : Except EngineError BuildResult :=
  match dockerfile_read with
  | .error err =>
    .error (EngineError.new_docker_cannot_read_dockerfile event_details
      dockerfile_complete_path (CommandError.new err none))
  | .ok _ =>
    match exec_outcome with
    | none => .ok { build := b }
    | some (.killed _) =>
      .error (EngineError.new_task_cancellation_requested event_details)
    | some (.exitStatusError m) =>
      .error (EngineError.new_docker_cannot_build_container_image event_details
        name_with_id (CommandError.new (CmdError.debugFmt (.exitStatusError m)) none))

/-- The test applied to the buildpack-language hint inside
build_image_with_buildpacks (lines 246-286): splitting on the at sign
must give one part (builder) or two parts (builder and version); more
parts is the invalid-format hard failure. -/
def buildpack_language_invalid : Option String → Bool
  | none => false
  | some lang => decide (2 < (lang.splitOn "@").length)

/-- The builder loop of build_image_with_buildpacks (lines 215-344): each
builder is attempted in order through the command executor oracle; the
first success stops the loop, and every failure is wrapped by map_err
into a plain CommandError built from the debug formatting of the process
error (line 338) before the loop state is updated. Returns the final
exit status together with the list of attempted builders. When no
builder exists, the initial No-builder-names error stands. -/
def run_builders (exec : String → Option CmdError) :
    List String → Except CommandError Unit × List String
  | [] => (.error (CommandError.new_from_safe_message "No builder names"), [])
  | builder_name :: rest =>
    match exec builder_name with
    | none => (.ok (), [builder_name])
    | some e =>
      match rest with
      | [] => (.error (CommandError.new (CmdError.debugFmt e) none), [builder_name])
      | _ :: _ =>
        let r := run_builders exec rest
        (r.1, builder_name :: r.2)

/-- LocalDocker::build_image_with_buildpacks (lines 199-363): an invalid
buildpack-language hint aborts before any attempt (it is tested inside
the loop body, so only when at least one builder is configured); then
the builder loop runs, a success yields the BuildResult, and a failure
yields the generic buildpack error naming the configured builders. The
source final match also holds an arm testing the Killed process error,
but the loop has already wrapped every process error into a plain
CommandError (line 338), so that arm can never fire and every failure
lands on the generic arm; the model reflects the reachable arms.
Returns the result together with the attempted builders. -/
def build_image_with_buildpacks (exec : String → Option CmdError)
    (event_details : EventDetails) (name_with_id : String)
    (builders : List String) (b : Build) :
    Except EngineError BuildResult × List String :=
  if builders.length ≠ 0 && buildpack_language_invalid b.git_repository.buildpack_language then
    (.error (EngineError.new_buildpack_invalid_language_format event_details
      (b.git_repository.buildpack_language.getD "")), [])
  else
    let r := run_builders exec builders
    match r.1 with
    | .ok _ => (.ok { build := b }, r.2)
    | .error err =>
      (.error (EngineError.new_buildpack_cannot_build_container_image event_details
        name_with_id builders err), r.2)

/-- The externally visible attempts of LocalDocker::build: the docker
image-inspect cache lookup, the repository clone, and one process spawn
per build attempt of either strategy. -/
inductive BuildStep where
  | imageExistsCheck
  | clone
  | dockerExec
  | packExec (builder_name : String)
  deriving DecidableEq

/-- Oracle outcomes for the external effects touched by
LocalDocker::build: the two cooperative cancellation polls (at entry and
before the clone), the cache lookup, the workspace allocation, the
clone, the Dockerfile presence and content, and one command-executor
outcome per strategy (none means success). The disk-pressure check of
lines 556-596 only logs and prunes and cannot alter the result, so it
carries no oracle. -/
structure BuildEffects where
  canceled_at_entry : Bool
  canceled_before_clone : Bool
  image_exists : Bool
  workspace_result : Except String String
  clone_error : Option String
  dockerfile_on_disk : Bool
  dockerfile_read : Except String String
  exec_docker : Option CmdError
  exec_pack : String → Option CmdError

/-- LocalDocker::build (src/src/build_platform/local_docker.rs lines
443-684): poll cancellation, short-circuit on a cache hit when the build
is not forced, allocate the workspace, poll cancellation again, clone,
then dispatch on the presence of a Dockerfile path to one of the two
strategies. Returns the result together with the externally visible
attempt steps. The environment-variable preparation of lines 541-552
(modelled by prepare_build_env) and the docker argument assembly only
shape the spawned command line, never the result or the attempt steps,
so they are not threaded through this result-level model; logging,
progress events and git credentials are likewise omitted. -/
def LocalDocker.build (fx : BuildEffects) (event_details : EventDetails)
    (name_with_id : String) (b : Build) (force_build : Bool) :
    Except EngineError BuildResult × List BuildStep :=
  if fx.canceled_at_entry then
    (.error (EngineError.new_task_cancellation_requested event_details), [])
  else
    let steps := if force_build then [] else [BuildStep.imageExistsCheck]
    if !force_build && fx.image_exists then
      (.ok { build := b }, steps)
    else
      match fx.workspace_result with
      | .error err =>
        (.error (EngineError.new_cannot_get_workspace_directory event_details
          (CommandError.new err none)), steps)
      | .ok repository_root_path =>
        if fx.canceled_before_clone then
          (.error (EngineError.new_task_cancellation_requested event_details), steps)
        else
          match fx.clone_error with
          | some clone_error =>
            (.error (EngineError.new_builder_clone_repository_error event_details
              b.git_repository.url (CommandError.new clone_error none)),
             steps ++ [BuildStep.clone])
          | none =>
            let steps := steps ++ [BuildStep.clone]
            match b.git_repository.dockerfile_path with
            | some dockerfile_relative_path =>
              let dockerfile_normalized_path :=
                normalize_dockerfile_path dockerfile_relative_path
              let dockerfile_relative_path :=
                b.git_repository.root_path ++ "/" ++ dockerfile_normalized_path
              let dockerfile_absolute_path :=
                repository_root_path ++ "/" ++ dockerfile_relative_path
              if !fx.dockerfile_on_disk then
                (.error (EngineError.new_docker_cannot_find_dockerfile event_details
                  dockerfile_absolute_path), steps)
              else
                let exec_steps :=
                  match fx.dockerfile_read with
                  | .error _ => []
                  | .ok _ => [BuildStep.dockerExec]
                (build_image_with_docker fx.dockerfile_read fx.exec_docker
                  event_details name_with_id dockerfile_absolute_path b,
                 steps ++ exec_steps)
            | none =>
              let r := build_image_with_buildpacks fx.exec_pack event_details
                name_with_id BUILDPACKS_BUILDERS b
              (r.1, steps ++ r.2.map BuildStep.packExec)

/-! ## Registry orchestrator, from src/src/container_registry/ecr.rs -/

/-- Modelled from the spec: the tri-state pull outcome; absence of the
remote image is the distinguished no-image success value, not an error
(the container_registry module declaring PullResult is not under src/). -/
inductive PullResult where
  | None
  | Some (image : Image)
  deriving DecidableEq

/-- Modelled from the spec: a registry-side Repository as used by
ECR::pull; only its URI matters here (the source unwraps it). -/
structure EcrRepository where
  repository_uri : String
  deriving DecidableEq

/-- The externally visible attempts of ECR::pull: the remote existence
check, the registry login, the repository resolution
(get_or_create_repository) and the actual docker pull. -/
inductive EcrStep where
  | checkImageExists
  | login
  | resolveRepository
  | pullImage
  deriving DecidableEq

/-- Oracle outcomes for the collaborators of ECR::pull: whether the
remote image exists (does_image_exists, lines 502-504), the result of
exec_docker_login, the result of get_or_create_repository, and whether
the docker pull process succeeds. -/
structure EcrPullEffects where
  image_exists : Bool
  login_result : Except EngineError Unit
  get_or_create_result : Except EngineError EcrRepository
  docker_pull_error : Option CommandError

/-- ECR::pull (src/src/container_registry/ecr.rs lines 506-568): when the
image does not exist remotely, return the distinguished PullResult::None
success immediately; otherwise log in, resolve the repository, and pull,
resolving the destination reference from the repository URI and the
image tag. Returns the result together with the attempted steps. -/
def ECR.pull (fx : EcrPullEffects) (event_details : EventDetails)
    (image : Image) : Except EngineError PullResult × List EcrStep :=
  let steps := [EcrStep.checkImageExists]
  if !fx.image_exists then
    (.ok PullResult.None, steps)
  else
    let steps := steps ++ [EcrStep.login]
    match fx.login_result with
    | .error e => (.error e, steps)
    | .ok _ =>
      let steps := steps ++ [EcrStep.resolveRepository]
      match fx.get_or_create_result with
      | .error e => (.error e, steps)
      | .ok repository =>
        let dest := repository.repository_uri ++ ":" ++ image.tag
        let steps := steps ++ [EcrStep.pullImage]
        match fx.docker_pull_error with
        | none =>
          (.ok (PullResult.Some { image with registry_url := some dest }), steps)
        | some e =>
          (.error (EngineError.new_docker_pull_image_error event_details
            image.name dest e), steps)

/-! ## Managed Redis database, from src/src/cloud_provider/aws/databases/redis.rs -/

/-- The characters of the Rust byte slice s[..n] of a UTF-8 string given
as its character list: consume characters while their encoded sizes fit
into the byte budget; the budget reaching exactly zero is a character
boundary and yields the consumed characters, while a budget that ends
inside a character, or exceeds the string, is the panic of the slice
operator, returned as none. -/
def utf8_byte_slice : Nat → List Char → Option (List Char)
  | n, [] => if n = 0 then some [] else none
  | n, c :: rest =>
    if n = 0 then some []
    else if c.utf8Size ≤ n then
      (utf8_byte_slice (n - c.utf8Size) rest).map (fun l => c :: l)
    else
      none

/-- RedisAws::sanitized_name (src/src/cloud_provider/aws/databases/redis.rs
lines 130-141): drop every underscore and hyphen from the service name;
when the cleaned name counts more than 42 characters (47 minus the byte
length of the redis prefix), truncate it with the byte-index slice
new_name[..42], which panics (none) when byte 42 is not a character
boundary; finally prepend the prefix. The character-count guard with the
byte-index truncation is exactly the source pairing of
chars().count() at line 136 and new_name[..max_size] at line 137. -/
def RedisAws.sanitized_name (name : String) : Option String :=
  let pfx := "redis"
  let max_size := 47 - pfx.length
  let new_name := (name.data.filter (fun c => c ≠ '_')).filter (fun c => c ≠ '-')
  if max_size < new_name.length then
    (utf8_byte_slice max_size new_name).map (fun l => pfx ++ (⟨l⟩ : String))
  else
    some (pfx ++ (⟨new_name⟩ : String))

/-! ## Shared helper lemmas and sample values -/

/-- Whether an Except value is a success. -/
def exceptIsOk {ε α : Type} : Except ε α → Bool
  | .ok _ => true
  | .error _ => false

/-- Sample event details used by concrete witnesses. -/
def sample_event_details : EventDetails :=
  { execution_id := "exec-id-1" }

/-- Sample image used by concrete witnesses. -/
def sample_image : Image :=
  { name := "app"
    tag := "v1"
    application_id := "app-id-1"
    commit_id := "deadbeef"
    registry_url := none }

/-- Sample build used by concrete witnesses (no Dockerfile path, no
buildpack language hint, no environment variables). -/
def sample_build : Build :=
  { git_repository :=
      { url := "https://example.com/repo.git"
        commit_id := "deadbeef"
        root_path := "."
        dockerfile_path := none
        buildpack_language := none }
    image := sample_image
    options := { environment_variables := [] } }

/-- Characterization of the environment-variable preparation loop: the
disable flag is set exactly when some declared variable is the active
disable-cache sentinel, and the forwarded arguments are the KEY=VALUE
renderings of every other variable, in order. -/
theorem prepare_build_env_spec (evs : List EnvironmentVariable) :
    prepare_build_env evs =
      (evs.any is_disable_cache_sentinel,
       (evs.filter (fun ev => !is_disable_cache_sentinel ev)).map format_env_var) := by
  induction evs with
  | nil => rfl
  | cons ev rest ih =>
    by_cases h : is_disable_cache_sentinel ev = true <;>
      simp [prepare_build_env, ih, h, List.any_cons, List.filter_cons]

/-! ## Claim C1 -/

/-- C1: for every EngineError, message() prefers the safe message over the
raw message over the fixed fallback string: a present safe message is
returned (and, when a distinct raw message is also present, the raw
message is never returned); with no safe message a present raw message is
returned; with neither the fixed fallback string is returned. -/
theorem claim_C1_message_preference (e : EngineError) :
    (∀ s, e.raw_message_safe = some s → e.message = s) ∧
    (e.raw_message_safe = none → ∀ r, e.raw_message = some r → e.message = r) ∧
    (e.raw_message_safe = none → e.raw_message = none →
      e.message = "no error message defined") ∧
    (∀ s r, e.raw_message_safe = some s → e.raw_message = some r → r ≠ s →
      e.message ≠ r) := by
  refine ⟨?_, ?_, ?_, ?_⟩
  · intro s h
    simp [EngineError.message, h]
  · intro h r h2
    simp [EngineError.message, h, h2]
  · intro h h2
    simp [EngineError.message, h, h2]
  · intro s r hs hr hne
    simp only [EngineError.message, hs]
    exact fun h => hne h.symm

/-- C1 witness: on an error holding both a raw and a safe message,
message() returns the safe one and not the raw one. -/
theorem claim_C1_message_preference_witness :
    (EngineError.new sample_event_details Tag.Unknown "q" "u"
        (some "raw secret") (some "safe text") none none).message = "safe text" ∧
    (EngineError.new sample_event_details Tag.Unknown "q" "u"
        (some "raw secret") (some "safe text") none none).message ≠ "raw secret" :=
  ⟨(claim_C1_message_preference _).1 "safe text" rfl,
   (claim_C1_message_preference _).2.2.2 "safe text" "raw secret" rfl rfl (by decide)⟩

/-! ## Claim C8 -/

/-- C8: the claim expects the cannot-get-cluster-nodes constructor to
carry Tag.CannotGetClusterNodes; the source instead passes
Tag.CannotRetrieveClusterConfigFile (src/src/errors/mod.rs line 255),
the tag of the cluster-config-file constructor, although the enum
declares a dedicated CannotGetClusterNodes variant and the constructor
documentation says it is for the cannot-get-nodes failure. This theorem
evaluates both constructors at a concrete input and shows they carry the
same tag, which is not CannotGetClusterNodes. -/
theorem claim_C8_cluster_nodes_tag :
    (EngineError.new_cannot_get_cluster_nodes sample_event_details "boom").tag
      = Tag.CannotRetrieveClusterConfigFile ∧
    (EngineError.new_cannot_get_cluster_nodes sample_event_details "boom").tag
      ≠ Tag.CannotGetClusterNodes ∧
    (EngineError.new_cannot_get_cluster_nodes sample_event_details "boom").tag
      = (EngineError.new_cannot_retrieve_cluster_config_file sample_event_details "boom").tag :=
  ⟨rfl, by decide, rfl⟩

/-! ## Claim C10 -/

/-- The cleaned service name: the original name with every underscore and
hyphen removed, as computed inside RedisAws::sanitized_name. -/
def redis_cleaned (name : String) : List Char :=
  (name.data.filter (fun c => c ≠ '_')).filter (fun c => c ≠ '-')

/-- Normal form of sanitized_name over the cleaned name. -/
theorem sanitized_name_eq (name : String) :
    RedisAws.sanitized_name name =
      (if 42 < (redis_cleaned name).length then
        (utf8_byte_slice 42 (redis_cleaned name)).map
          (fun l => "redis" ++ (⟨l⟩ : String))
      else some ("redis" ++ (⟨redis_cleaned name⟩ : String))) := rfl

/-- A successful byte slice holds at most as many characters as its byte
budget, every character weighing at least one byte. -/
theorem utf8_byte_slice_length (l : List Char) :
    ∀ (n : Nat) (r : List Char), utf8_byte_slice n l = some r → r.length ≤ n := by
  induction l with
  | nil =>
    intro n r h
    by_cases hn : n = 0
    · subst hn
      have h2 : ([] : List Char) = r := Option.some.inj h
      simp [← h2]
    · simp [utf8_byte_slice, hn] at h
  | cons c rest ih =>
    intro n r h
    by_cases hn : n = 0
    · subst hn
      have h2 : ([] : List Char) = r := Option.some.inj h
      simp [← h2]
    · by_cases hsz : c.utf8Size ≤ n
      · rw [utf8_byte_slice, if_neg hn, if_pos hsz, Option.map_eq_some'] at h
        obtain ⟨a, ha, hr⟩ := h
        have hrec := ih (n - c.utf8Size) a ha
        have hpos := Char.utf8Size_pos c
        rw [← hr]
        simp only [List.length_cons]
        omega
      · simp [utf8_byte_slice, hn, hsz] at h

/-- A successful byte slice only holds characters of the sliced string. -/
theorem utf8_byte_slice_subset (l : List Char) :
    ∀ (n : Nat) (r : List Char), utf8_byte_slice n l = some r → r ⊆ l := by
  induction l with
  | nil =>
    intro n r h
    by_cases hn : n = 0
    · subst hn
      have h2 : ([] : List Char) = r := Option.some.inj h
      simp [← h2]
    · simp [utf8_byte_slice, hn] at h
  | cons c rest ih =>
    intro n r h
    by_cases hn : n = 0
    · subst hn
      have h2 : ([] : List Char) = r := Option.some.inj h
      simp [← h2]
    · by_cases hsz : c.utf8Size ≤ n
      · rw [utf8_byte_slice, if_neg hn, if_pos hsz, Option.map_eq_some'] at h
        obtain ⟨a, ha, hr⟩ := h
        rw [← hr]
        exact List.cons_subset_cons c (ih (n - c.utf8Size) a ha)
      · simp [utf8_byte_slice, hn, hsz] at h

/-- Shape of a returned sanitized name built from at most 42 characters
of the cleaned name: redis prefix, no underscore or hyphen, at most 47
characters. -/
theorem sanitized_shape (name : String) (r : List Char)
    (hsub : r ⊆ redis_cleaned name) (hlen : r.length ≤ 42) :
    (∃ rest, ("redis" ++ (⟨r⟩ : String)).data = "redis".data ++ rest) ∧
    '_' ∉ ("redis" ++ (⟨r⟩ : String)).data ∧
    '-' ∉ ("redis" ++ (⟨r⟩ : String)).data ∧
    ("redis" ++ (⟨r⟩ : String)).length ≤ 47 := by
  have hdata : ("redis" ++ (⟨r⟩ : String)).data = "redis".data ++ r :=
    String.data_append _ _
  refine ⟨⟨r, hdata⟩, ?_, ?_, ?_⟩
  · rw [hdata]
    intro hmem
    rcases List.mem_append.mp hmem with hm | hm
    · exact absurd hm (by decide)
    · have hm2 := hsub hm
      have := (List.mem_filter.mp (List.mem_filter.mp hm2).1).2
      simp at this
  · rw [hdata]
    intro hmem
    rcases List.mem_append.mp hmem with hm | hm
    · exact absurd hm (by decide)
    · have hm2 := hsub hm
      have := (List.mem_filter.mp hm2).2
      simp at this
  · show ("redis" ++ (⟨r⟩ : String)).data.length ≤ 47
    rw [hdata, List.length_append]
    have hfive : ("redis".data).length = 5 := rfl
    rw [hfive]
    omega

/-- A service name on which sanitized_name panics: one single-byte
character followed by 42 two-byte characters. The cleaned name counts 43
characters, so the guard truncates, and the byte slice at index 42 lands
inside the twenty-first two-byte character. -/
def sample_panic_name : String :=
  ⟨'a' :: List.replicate 42 'é'⟩

/-- C10 counterexample: sanitized_name() does not return a string on
every service name. On sample_panic_name the source slices
new_name[..42] off a character boundary and panics (redis.rs line 137),
so no string with the claimed shape is returned. -/
theorem claim_C10_sanitized_name_counterexample :
    RedisAws.sanitized_name sample_panic_name = none := by decide

/-- C10 (amended): for every service name on which sanitized_name()
returns a string (every name whose cleaned form either fits in 42
characters or has its 42nd byte on a character boundary, in particular
every ASCII name), the returned string begins with the prefix redis,
contains none of the characters underscore and hyphen, and has length at
most 47 characters: the 5-character prefix plus at most 42 characters of
the cleaned name, truncating the cleaned name when it is longer. -/
theorem claim_C10_sanitized_name (name s : String)
    (h : RedisAws.sanitized_name name = some s) :
    (∃ rest, s.data = "redis".data ++ rest) ∧
    '_' ∉ s.data ∧
    '-' ∉ s.data ∧
    s.length ≤ 47 := by
  rw [sanitized_name_eq] at h
  split at h
  · rw [Option.map_eq_some'] at h
    obtain ⟨r, hr, hs⟩ := h
    rw [← hs]
    exact sanitized_shape name r (utf8_byte_slice_subset _ _ _ hr)
      (utf8_byte_slice_length _ _ _ hr)
  · rw [Option.some_inj] at h
    rw [← h]
    exact sanitized_shape name (redis_cleaned name) (fun x hx => hx) (by omega)

/-- A long ASCII service name exercising the truncation path. -/
def sample_long_ascii_name : String :=
  ⟨List.replicate 50 'a'⟩

/-- The sanitized form of the long ASCII sample name. -/
def sample_truncated_output : String :=
  ⟨"redis".data ++ List.replicate 42 'a'⟩

/-- C10 witness: on a 50-character ASCII name, sanitized_name() returns
the redis prefix plus the first 42 characters, and the returned string
has the claimed shape. -/
theorem claim_C10_sanitized_name_witness :
    RedisAws.sanitized_name sample_long_ascii_name = some sample_truncated_output ∧
    ((∃ rest, sample_truncated_output.data = "redis".data ++ rest) ∧
      '_' ∉ sample_truncated_output.data ∧
      '-' ∉ sample_truncated_output.data ∧
      sample_truncated_output.length ≤ 47) := by
  have h : RedisAws.sanitized_name sample_long_ascii_name
      = some sample_truncated_output := by decide
  exact ⟨h, claim_C10_sanitized_name sample_long_ascii_name sample_truncated_output h⟩

/-! ## Claim C6 -/

/-- C6: Dockerfile path normalization in build(): every input whose
trimmed form is one of the six default spellings (the empty string, dot,
slash, slash-dot, dot-slash, Dockerfile) resolves to the effective path
Dockerfile, and any other (trimmed) string is used verbatim. -/
theorem claim_C6_dockerfile_path_normalization :
    (∀ s : String,
      (rustTrim s = "" ∨ rustTrim s = "." ∨ rustTrim s = "/" ∨ rustTrim s = "/." ∨
        rustTrim s = "./" ∨ rustTrim s = "Dockerfile") →
      normalize_dockerfile_path s = "Dockerfile") ∧
    (∀ s : String, rustTrim s = s →
      ¬(s = "" ∨ s = "." ∨ s = "/" ∨ s = "/." ∨ s = "./" ∨ s = "Dockerfile") →
      normalize_dockerfile_path s = s) := by
  constructor
  · intro s h
    rcases h with h | h | h | h | h | h <;> simp [normalize_dockerfile_path, h]
  · intro s ht h
    push_neg at h
    obtain ⟨h1, h2, h3, h4, h5, h6⟩ := h
    simp [normalize_dockerfile_path, ht, h1, h2, h3, h4, h5, h6]

/-- C6 witness: the six default spellings resolve to Dockerfile, and a
custom path is used verbatim. -/
theorem claim_C6_dockerfile_path_normalization_witness :
    normalize_dockerfile_path "" = "Dockerfile" ∧
    normalize_dockerfile_path "." = "Dockerfile" ∧
    normalize_dockerfile_path "/" = "Dockerfile" ∧
    normalize_dockerfile_path "/." = "Dockerfile" ∧
    normalize_dockerfile_path "./" = "Dockerfile" ∧
    normalize_dockerfile_path "Dockerfile" = "Dockerfile" ∧
    normalize_dockerfile_path "docker/prod.Dockerfile" = "docker/prod.Dockerfile" :=
  ⟨(claim_C6_dockerfile_path_normalization).1 "" (Or.inl (by decide)),
   (claim_C6_dockerfile_path_normalization).1 "." (Or.inr (Or.inl (by decide))),
   (claim_C6_dockerfile_path_normalization).1 "/" (Or.inr (Or.inr (Or.inl (by decide)))),
   (claim_C6_dockerfile_path_normalization).1 "/."
     (Or.inr (Or.inr (Or.inr (Or.inl (by decide))))),
   (claim_C6_dockerfile_path_normalization).1 "./"
     (Or.inr (Or.inr (Or.inr (Or.inr (Or.inl (by decide)))))),
   (claim_C6_dockerfile_path_normalization).1 "Dockerfile"
     (Or.inr (Or.inr (Or.inr (Or.inr (Or.inr (by decide)))))),
   (claim_C6_dockerfile_path_normalization).2 "docker/prod.Dockerfile" (by decide)
     (by decide)⟩

/-! ## Claim C9 -/

/-- C9: the environment-variable preparation of build(): the disable
flag is raised exactly when some declared variable has the key
QOVERY_DISABLE_BUILD_CACHE and a value whose lowercased form equals
true, and exactly the variables not matching that condition (including
the sentinel key with any other value, such as False or True followed by
a space) are forwarded downstream, verbatim as KEY=VALUE, in order. -/
theorem claim_C9_disable_build_cache_sentinel (evs : List EnvironmentVariable) :
    (prepare_build_env evs).1 =
      evs.any (fun ev =>
        ev.key = "QOVERY_DISABLE_BUILD_CACHE" && rustToLowercase ev.value = "true") ∧
    (prepare_build_env evs).2 =
      (evs.filter (fun ev =>
        !(ev.key = "QOVERY_DISABLE_BUILD_CACHE" && rustToLowercase ev.value = "true"))).map
        (fun ev => ev.key ++ "=" ++ ev.value) := by
  rw [prepare_build_env_spec]
  exact ⟨rfl, rfl⟩

/-! ## Substring and builder-loop lemmas -/

/-- Every list starts with the empty list. -/
theorem starts_with_chars_nil_needle (hay : List Char) :
    starts_with_chars hay [] = true := by
  cases hay <;> rfl

/-- Unfolding of contains_chars on a cons cell. -/
theorem contains_chars_cons (a : Char) (l needle : List Char) :
    contains_chars (a :: l) needle =
      (starts_with_chars (a :: l) needle || contains_chars l needle) := rfl

/-- A list starts with itself followed by anything. -/
theorem starts_with_chars_append (l ext : List Char) :
    starts_with_chars (l ++ ext) l = true := by
  induction l with
  | nil => exact starts_with_chars_nil_needle ext
  | cons h t ih => simp [starts_with_chars, ih]

/-- Extending the haystack on the right preserves a prefix match. -/
theorem starts_with_chars_extend (hay ext needle : List Char)
    (h : starts_with_chars hay needle = true) :
    starts_with_chars (hay ++ ext) needle = true := by
  induction needle generalizing hay with
  | nil => exact starts_with_chars_nil_needle _
  | cons n ns ih =>
    cases hay with
    | nil => simp [starts_with_chars] at h
    | cons hh ht =>
      simp [starts_with_chars] at h ⊢
      exact ⟨h.1, ih ht h.2⟩

/-- A prefix match is an occurrence. -/
theorem contains_chars_of_starts (hay needle : List Char)
    (h : starts_with_chars hay needle = true) :
    contains_chars hay needle = true := by
  cases hay <;> simp [contains_chars, h]

/-- Prepending to the haystack preserves an occurrence. -/
theorem contains_chars_append_left (pre hay needle : List Char)
    (h : contains_chars hay needle = true) :
    contains_chars (pre ++ hay) needle = true := by
  induction pre with
  | nil => simpa using h
  | cons p ps ih =>
    rw [List.cons_append, contains_chars_cons, Bool.or_eq_true]
    exact Or.inr ih

/-- Appending to the haystack preserves an occurrence. -/
theorem contains_chars_append_right (hay ext needle : List Char)
    (h : contains_chars hay needle = true) :
    contains_chars (hay ++ ext) needle = true := by
  induction hay with
  | nil =>
    have hneedle : needle = [] := by
      cases needle with
      | nil => rfl
      | cons n ns => simp [contains_chars, starts_with_chars] at h
    subst hneedle
    exact contains_chars_of_starts _ _ (starts_with_chars_nil_needle _)
  | cons a l ih =>
    rw [contains_chars_cons, Bool.or_eq_true] at h
    rw [List.cons_append, contains_chars_cons, Bool.or_eq_true]
    rcases h with h | h
    · exact Or.inl (starts_with_chars_extend _ _ _ h)
    · exact Or.inr (ih h)

/-- Every member of a joined list occurs inside the join. -/
theorem join_with_mem_contains (sep : String) (l : List String) (x : String)
    (hx : x ∈ l) :
    contains_chars (join_with sep l).data x.data = true := by
  induction l with
  | nil => cases hx
  | cons a t ih =>
    cases t with
    | nil =>
      have hxa : x = a := by simpa using hx
      subst hxa
      have : starts_with_chars (x.data ++ []) x.data = true := starts_with_chars_append _ _
      rw [List.append_nil] at this
      exact contains_chars_of_starts _ _ this
    | cons b t2 =>
      have hjoin : join_with sep (a :: b :: t2) = a ++ sep ++ join_with sep (b :: t2) := rfl
      rcases List.mem_cons.mp hx with hxa | hxt
    
      · subst hxa
        rw [hjoin, String.data_append, String.data_append, List.append_assoc]
        exact contains_chars_of_starts _ _ (starts_with_chars_append _ _)
      · rw [hjoin, String.data_append]
        exact contains_chars_append_left _ _ _ (ih hxt)

/-- The builder loop continues past a failing builder when more builders
remain, collecting the failing builder into the attempted list. -/
theorem run_builders_cons_fail (exec : String → Option CmdError) (bn : String)
    (rest : List String) (e : CmdError) (he : exec bn = some e) (hne : rest ≠ []) :
    run_builders exec (bn :: rest) =
      ((run_builders exec rest).1, bn :: (run_builders exec rest).2) := by
  cases rest with
  | nil => exact absurd rfl hne
  | cons b2 t2 => simp [run_builders, he]

/-- When the first k builders fail and builder k succeeds, the loop stops
after exactly k+1 attempts with a success status. -/
theorem run_builders_success (exec : String → Option CmdError) (bs : List String) :
    ∀ (k : ℕ), k < bs.length →
      (∀ i, i < k → exec (bs.getD i "") ≠ none) →
      exec (bs.getD k "") = none →
      run_builders exec bs = (.ok (), bs.take (k + 1)) := by
  induction bs with
  | nil =>
    intro k hk
    exact absurd hk (by simp)
  | cons b rest ih =>
    intro k hk hfail hsucc
    cases k with
    | zero =>
      have hb : exec b = none := by simpa using hsucc
      simp [run_builders, hb]
    | succ k2 =>
      have hb : exec b ≠ none := by
        have := hfail 0 (Nat.succ_pos k2)
        simpa using this
      obtain ⟨e, he⟩ : ∃ e, exec b = some e := by
        cases hexec : exec b with
        | none => exact absurd hexec hb
        | some e => exact ⟨e, rfl⟩
      have hrest : k2 < rest.length := by
        have := hk
        simp at this
        omega
      have hne : rest ≠ [] := by
        intro hempty
        rw [hempty] at hrest
        simp at hrest
      rw [run_builders_cons_fail exec b rest e he hne]
      have hrec := ih k2 hrest
        (fun i hi => by simpa using hfail (i + 1) (Nat.succ_lt_succ hi))
        (by simpa using hsucc)
      rw [hrec]
      simp [List.take]

/-- When every builder fails, the loop attempts all of them and ends with
a failure status. -/
theorem run_builders_allfail (exec : String → Option CmdError) (bs : List String)
    (h : ∀ x ∈ bs, exec x ≠ none) :
    ∃ ce : CommandError, run_builders exec bs = (.error ce, bs) := by
  induction bs with
  | nil => exact ⟨CommandError.new_from_safe_message "No builder names", rfl⟩
  | cons b rest ih =>
    obtain ⟨e, he⟩ : ∃ e, exec b = some e := by
      cases hexec : exec b with
      | none => exact absurd hexec (h b (List.mem_cons_self _ _))
      | some e => exact ⟨e, rfl⟩
    cases rest with
    | nil =>
      exact ⟨CommandError.new (CmdError.debugFmt e) none, by simp [run_builders, he]⟩
    | cons b2 t2 =>
      obtain ⟨ce, hce⟩ := ih (fun x hx => h x (List.mem_cons_of_mem _ hx))
      refine ⟨ce, ?_⟩
      rw [run_builders_cons_fail exec b (b2 :: t2) e he (by simp), hce]

/-! ## Claim C4 -/

/-- C4: in the buildpacks strategy (with a parseable language hint), if
the first k configured builders fail and builder k+1 succeeds, the
orchestrator returns success after attempting exactly the first k+1
builders, never attempting the later ones; and if every builder fails,
all of them are attempted and the returned error names every attempted
builder inside its message. -/
theorem claim_C4_builder_fallback (exec : String → Option CmdError)
    (builders : List String) (d : EventDetails) (svc : String) (b : Build)
    (hlang : buildpack_language_invalid b.git_repository.buildpack_language = false) :
    (∀ k, k < builders.length →
      (∀ i, i < k → exec (builders.getD i "") ≠ none) →
      exec (builders.getD k "") = none →
      build_image_with_buildpacks exec d svc builders b =
        (.ok { build := b }, builders.take (k + 1))) ∧
    ((∀ x ∈ builders, exec x ≠ none) →
      ∃ ce : CommandError,
        build_image_with_buildpacks exec d svc builders b =
          (.error (EngineError.new_buildpack_cannot_build_container_image d svc
            builders ce), builders) ∧
        ∀ x ∈ builders,
          string_contains
            (EngineError.new_buildpack_cannot_build_container_image d svc
              builders ce).message x = true) := by
  constructor
  · intro k hk hfail hsucc
    have hrun := run_builders_success exec builders k hk hfail hsucc
    simp [build_image_with_buildpacks, hlang, hrun]
  · intro hall
    obtain ⟨ce, hrun⟩ := run_builders_allfail exec builders hall
    refine ⟨ce, ?_, ?_⟩
    · simp [build_image_with_buildpacks, hlang, hrun]
    · intro x hx
      unfold string_contains
      have hmsg : (EngineError.new_buildpack_cannot_build_container_image d svc
          builders ce).message
          = "Error while building container image " ++ svc
            ++ " with one of those builders: " ++ join_with ", " builders := rfl
      rw [hmsg, String.data_append]
      exact contains_chars_append_left _ _ _ (join_with_mem_contains _ _ _ hx)

/-- Command executor oracle for the C4 witness: the first and third
builders fail, the second succeeds. -/
def sample_exec_second_succeeds : String → Option CmdError :=
  fun s => if s = "builder-b" then none else some (.exitStatusError "exit status 1")

/-- C4 witness: with three builders where only the second succeeds, the
strategy returns success after attempting exactly the first two; with
every builder failing, all three are attempted and each is named in the
error message. -/
theorem claim_C4_builder_fallback_witness :
    build_image_with_buildpacks sample_exec_second_succeeds sample_event_details
        "app-name" ["builder-a", "builder-b", "builder-c"] sample_build =
      (.ok { build := sample_build }, ["builder-a", "builder-b"]) ∧
    (∃ ce : CommandError,
      build_image_with_buildpacks (fun _ => some (.exitStatusError "exit status 1"))
          sample_event_details "app-name" ["builder-a", "builder-b", "builder-c"]
          sample_build =
        (.error (EngineError.new_buildpack_cannot_build_container_image
          sample_event_details "app-name" ["builder-a", "builder-b", "builder-c"] ce),
          ["builder-a", "builder-b", "builder-c"]) ∧
      ∀ x ∈ ["builder-a", "builder-b", "builder-c"],
        string_contains
          (EngineError.new_buildpack_cannot_build_container_image sample_event_details
            "app-name" ["builder-a", "builder-b", "builder-c"] ce).message x = true) :=
  ⟨(claim_C4_builder_fallback sample_exec_second_succeeds
      ["builder-a", "builder-b", "builder-c"] sample_event_details "app-name"
      sample_build rfl).1 1 (by decide)
      (fun i hi => by
        have hi0 : i = 0 := by omega
        subst hi0
        decide)
      (by decide),
   (claim_C4_builder_fallback (fun _ => some (.exitStatusError "exit status 1"))
      ["builder-a", "builder-b", "builder-c"] sample_event_details "app-name"
      sample_build rfl).2
      (fun x _ => by simp)⟩

/-! ## Claim C2 -/

/-- C2: the claim expects a kill caused by cancellation to surface as the
TaskCancellationRequested tag in both strategies. The Dockerfile
strategy does map the Killed process error to the
task-cancellation-requested error, and any other process failure to the
generic docker build failure with a different tag. In the buildpacks
strategy, however, the loop wraps every process error (line 338 of
local_docker.rs) into a plain CommandError built from debug formatting
before the final dispatch, so the source arm matching the Killed variant
can never fire: a kill during a pack build is returned as the generic
buildpack build failure, whose tag is not TaskCancellationRequested.
This theorem evaluates both strategies on a killed process. -/
theorem claim_C2_cancellation_tag :
    build_image_with_docker (.ok "FROM alpine") (some (.killed "task canceled"))
        sample_event_details "app-name" "/workspace/Dockerfile" sample_build
      = .error (EngineError.new_task_cancellation_requested sample_event_details) ∧
    (EngineError.new_task_cancellation_requested sample_event_details).tag
      = Tag.TaskCancellationRequested ∧
    (build_image_with_docker (.ok "FROM alpine")
        (some (.exitStatusError "exit status 1")) sample_event_details "app-name"
        "/workspace/Dockerfile" sample_build
      = .error (EngineError.new_docker_cannot_build_container_image sample_event_details
          "app-name"
          (CommandError.new (CmdError.debugFmt (.exitStatusError "exit status 1")) none))) ∧
    (EngineError.new_docker_cannot_build_container_image sample_event_details "app-name"
        (CommandError.new (CmdError.debugFmt (.exitStatusError "exit status 1")) none)).tag
      ≠ Tag.TaskCancellationRequested ∧
    (build_image_with_buildpacks (fun _ => some (.killed "task canceled"))
        sample_event_details "app-name" BUILDPACKS_BUILDERS sample_build).1
      = .error (EngineError.new_buildpack_cannot_build_container_image
          sample_event_details "app-name" BUILDPACKS_BUILDERS
          (CommandError.new (CmdError.debugFmt (.killed "task canceled")) none)) ∧
    (EngineError.new_buildpack_cannot_build_container_image sample_event_details
        "app-name" BUILDPACKS_BUILDERS
        (CommandError.new (CmdError.debugFmt (.killed "task canceled")) none)).tag
      ≠ Tag.TaskCancellationRequested :=
  ⟨rfl, rfl, rfl, by decide, rfl, by decide⟩

/-! ## Claim C3 -/

/-- Build effects for a quiet run with the target image already present:
no cancellation, cache hit, and every later stage able to succeed. -/
def sample_effects_cache_hit : BuildEffects :=
  { canceled_at_entry := false
    canceled_before_clone := false
    image_exists := true
    workspace_result := .ok "/workspace/build"
    clone_error := none
    dockerfile_on_disk := true
    dockerfile_read := .ok "FROM alpine"
    exec_docker := none
    exec_pack := fun _ => none }

/-- Build effects identical to the cache-hit run except that cancellation
is already requested when build() is invoked. -/
def sample_effects_canceled : BuildEffects :=
  { sample_effects_cache_hit with canceled_at_entry := true }

/-- C3 counterexample: with force_build false and the target image
present, but cancellation requested at entry, build() does not return
success; it returns the task-cancellation-requested error (cancellation
is polled before the cache lookup, lines 459-461 of local_docker.rs). -/
theorem claim_C3_cache_short_circuit_counterexample :
    sample_effects_canceled.image_exists = true ∧
    (LocalDocker.build sample_effects_canceled sample_event_details "app-name"
        sample_build false).1
      = .error (EngineError.new_task_cancellation_requested sample_event_details) ∧
    exceptIsOk (LocalDocker.build sample_effects_canceled sample_event_details
      "app-name" sample_build false).1 = false :=
  ⟨rfl, rfl, rfl⟩

/-- C3 (amended): for every Build where force_build is false, the target
image already exists, and cancellation has not been requested when
build() is invoked, build() returns success for that build after only
the cache lookup: the repository is not cloned and no build process is
spawned by either strategy. -/
theorem claim_C3_cache_short_circuit (fx : BuildEffects) (d : EventDetails)
    (svc : String) (b : Build) (hc : fx.canceled_at_entry = false)
    (hi : fx.image_exists = true) :
    LocalDocker.build fx d svc b false =
      (.ok { build := b }, [BuildStep.imageExistsCheck]) ∧
    BuildStep.clone ∉ (LocalDocker.build fx d svc b false).2 ∧
    BuildStep.dockerExec ∉ (LocalDocker.build fx d svc b false).2 ∧
    ∀ bn, BuildStep.packExec bn ∉ (LocalDocker.build fx d svc b false).2 := by
  have hmain : LocalDocker.build fx d svc b false =
      (.ok { build := b }, [BuildStep.imageExistsCheck]) := by
    simp [LocalDocker.build, hc, hi]
  refine ⟨hmain, ?_, ?_, ?_⟩
  · rw [hmain]
    simp
  · rw [hmain]
    simp
  · intro bn
    rw [hmain]
    simp

/-- C3 witness: on the quiet cache-hit run, build() succeeds after only
the image-existence lookup. -/
theorem claim_C3_cache_short_circuit_witness :
    LocalDocker.build sample_effects_cache_hit sample_event_details "app-name"
        sample_build false =
      (.ok { build := sample_build }, [BuildStep.imageExistsCheck]) :=
  (claim_C3_cache_short_circuit sample_effects_cache_hit sample_event_details
    "app-name" sample_build rfl rfl).1

/-! ## Claim C5 -/

/-- The key of a rendered KEY=VALUE argument is the original key, as long
as the key itself holds no equals sign. -/
theorem env_var_key_format (ev : EnvironmentVariable) (hkey : '=' ∉ ev.key.data) :
    env_var_key (format_env_var ev) = ev.key := by
  unfold env_var_key format_env_var
  apply String.ext
  show List.takeWhile _ (ev.key ++ "=" ++ ev.value).data = _
  have hdata : (ev.key ++ "=" ++ ev.value).data
      = ev.key.data ++ '=' :: ev.value.data := by
    rw [String.data_append, String.data_append]
    simp
  rw [hdata]
  generalize ev.key.data = l at hkey ⊢
  induction l with
  | nil => simp [List.takeWhile]
  | cons a t ih =>
    have ha : a ≠ '=' := by
      intro heq
      exact hkey (heq ▸ List.mem_cons_self a t)
    have ht : '=' ∉ t := fun hm => hkey (List.mem_cons_of_mem a hm)
    simp [List.takeWhile, ha]
    simpa using ih ht

/-- C5: in the Dockerfile strategy, a declared environment variable whose
key is not textually referenced in the Dockerfile content is excluded
from the build-argument values, while a referenced variable that is not
the disable-cache sentinel key is included verbatim as KEY=VALUE; and
every retained value is passed inside the argument list handed to the
docker build. -/
theorem claim_C5_env_var_forwarding (evs : List EnvironmentVariable)
    (content : String) (ev : EnvironmentVariable) (hkey : '=' ∉ ev.key.data) :
    (string_contains content ev.key = false →
      format_env_var ev ∉ match_used_env_var_args (prepare_build_env evs).2 content) ∧
    (string_contains content ev.key = true → ev ∈ evs →
      ev.key ≠ "QOVERY_DISABLE_BUILD_CACHE" →
      format_env_var ev ∈ match_used_env_var_args (prepare_build_env evs).2 content) ∧
    (∀ (use_build_cache : Bool) (docker_build_options : List (List String))
        (dockerfile_path : String) (im : Image) (into_dir : String),
      format_env_var ev ∈ match_used_env_var_args (prepare_build_env evs).2 content →
      format_env_var ev ∈ build_image_with_docker_args use_build_cache
        docker_build_options dockerfile_path im (prepare_build_env evs).2 content
        into_dir) := by
  refine ⟨?_, ?_, ?_⟩
  · intro hno hmem
    have hp := (List.mem_filter.mp hmem).2
    rw [env_var_key_format ev hkey] at hp
    rw [hno] at hp
    exact absurd hp (by simp)
  · intro hyes hmem hnotsentinel
    apply List.mem_filter.mpr
    constructor
    · rw [prepare_build_env_spec]
      apply List.mem_map_of_mem
      apply List.mem_filter.mpr
      refine ⟨hmem, ?_⟩
      simp [is_disable_cache_sentinel, hnotsentinel]
    · rw [env_var_key_format ev hkey]
      exact hyes
  · intro use_build_cache docker_build_options dockerfile_path im into_dir hmem
    unfold build_image_with_docker_args
    apply List.mem_append_left
    apply List.mem_append_right
    rw [List.mem_flatMap]
    exact ⟨format_env_var ev, hmem, by simp⟩

/-- Declared variables for the C5 witness: a referenced one and an
unreferenced one. -/
def sample_env_vars : List EnvironmentVariable :=
  [{ key := "PORT", value := "8080" }, { key := "SECRET_TOKEN", value := "hunter2" }]

/-- Dockerfile content for the C5 witness: it references PORT and not
SECRET_TOKEN. -/
def sample_dockerfile_content : String :=
  "FROM alpine ARG PORT EXPOSE PORT"

/-- C5 witness: the referenced variable is forwarded verbatim and the
unreferenced one is excluded. -/
theorem claim_C5_env_var_forwarding_witness :
    format_env_var { key := "PORT", value := "8080" }
      ∈ match_used_env_var_args (prepare_build_env sample_env_vars).2
          sample_dockerfile_content ∧
    format_env_var { key := "SECRET_TOKEN", value := "hunter2" }
      ∉ match_used_env_var_args (prepare_build_env sample_env_vars).2
          sample_dockerfile_content :=
  ⟨(claim_C5_env_var_forwarding sample_env_vars sample_dockerfile_content
      { key := "PORT", value := "8080" } (by decide)).2.1 (by decide)
      (by simp [sample_env_vars]) (by decide),
   (claim_C5_env_var_forwarding sample_env_vars sample_dockerfile_content
      { key := "SECRET_TOKEN", value := "hunter2" } (by decide)).1 (by decide)⟩

/-! ## Claim C7 -/

/-- C7: when the image does not exist in the remote registry, pull()
returns the distinguished no-image success value PullResult::None after
only the existence check, attempting neither the registry login nor the
repository resolution nor the docker pull; and whenever the image does
exist, the login is attempted. -/
theorem claim_C7_pull_absent_image (fx : EcrPullEffects) (d : EventDetails)
    (image : Image) (h : fx.image_exists = false) :
    ECR.pull fx d image = (.ok PullResult.None, [EcrStep.checkImageExists]) ∧
    EcrStep.login ∉ (ECR.pull fx d image).2 ∧
    EcrStep.resolveRepository ∉ (ECR.pull fx d image).2 ∧
    EcrStep.pullImage ∉ (ECR.pull fx d image).2 ∧
    (∀ fx2 : EcrPullEffects, fx2.image_exists = true →
      EcrStep.login ∈ (ECR.pull fx2 d image).2) := by
  have hmain : ECR.pull fx d image = (.ok PullResult.None, [EcrStep.checkImageExists]) := by
    simp [ECR.pull, h]
  refine ⟨hmain, ?_, ?_, ?_, ?_⟩
  · rw [hmain]
    simp
  · rw [hmain]
    simp
  · rw [hmain]
    simp
  · intro fx2 h2
    rcases hlr : fx2.login_result with e | u
    · simp [ECR.pull, h2, hlr]
    · rcases hgr : fx2.get_or_create_result with e | repo
      · simp [ECR.pull, h2, hlr, hgr]
      · rcases hdp : fx2.docker_pull_error with _ | e
        · simp [ECR.pull, h2, hlr, hgr, hdp]
        · simp [ECR.pull, h2, hlr, hgr, hdp]

/-- Registry effects for the C7 witness: the image is absent remotely and
every collaborator would succeed if called. -/
def sample_pull_effects_absent : EcrPullEffects :=
  { image_exists := false
    login_result := .ok ()
    get_or_create_result := .ok { repository_uri := "123.dkr.ecr.aws/app" }
    docker_pull_error := none }

/-- C7 witness: with the image absent remotely, pull() returns the
no-image success after only the existence check. -/
theorem claim_C7_pull_absent_image_witness :
    ECR.pull sample_pull_effects_absent sample_event_details sample_image =
      (.ok PullResult.None, [EcrStep.checkImageExists]) :=
  (claim_C7_pull_absent_image sample_pull_effects_absent sample_event_details
    sample_image rfl).1
